/-
  Verification of the SafeGuardian risk-scoring and alert pipeline.

  Shallow embedding of:
    backend/src/ai/grooming_detector.py         (GroomingDetector)
    backend/src/alerts/alert_manager.py         (AlertManager)
    backend/src/monitoring/real_time_monitor.py (RealTimeMonitor rate limiting)

  Conventions of the embedding:
  * Python floats are modelled as exact rationals (ℚ); every constant in the
    source is a short decimal, written here as a fraction (0.1 ↦ 1/10).
  * Python strings are modelled as `String` / `List Char`; `in` (substring
    test) and `str.count` (non-overlapping count) are implemented below.
  * `re.search` is modelled by a small matcher covering precisely the regex
    subset occurring in the source tables: literal text, alternation groups
    `(a|b|c)`, an optional literal `(x )?`, and `\w+`.
  * `datetime.now()` / `time.time()` are modelled by passing the clock as an
    explicit argument `now : ℚ`.
  * Mutable per-object state (conversation contexts, alerts, rate windows)
    is modelled by explicit state passing.
-/
import Mathlib

set_option maxHeartbeats 1600000

/-- The apostrophe character (written via its code point so that string
literals in this file avoid the bare character). -/
def apoChar : Char := Char.ofNat 39

/-- The apostrophe as a one-character string. -/
def ap : String := apoChar.toString

/-- Join two string pieces with an apostrophe between them. -/
def aw (a b : String) : String := a ++ ap ++ b

/-- The `headMatch n h`: the list `n` is an initial segment of `h` (the
"needle starts the hay" part of Python substring tests). -/
def headMatch : List Char → List Char → Bool
  | [], _ => true
  | _ :: _, [] => false
  | a :: as, b :: bs => a == b && headMatch as bs

/-- Python `needle in hay` (substring containment) on character lists. -/
def containsSub (n : List Char) : List Char → Bool
  | [] => headMatch n []
  | c :: t => headMatch n (c :: t) || containsSub n t

/-- Fuelled helper for `countSub`. Each recursive call shortens the hay by
at least one character, so `fuel = hay.length` always suffices; the fuel
only makes the recursion structural (so that proofs can evaluate it). -/
def countSubF (n : List Char) : Nat → List Char → Nat
  | 0, _ => 0
  | _ + 1, [] => 0
  | fuel + 1, c :: t =>
    if n ≠ [] ∧ headMatch n (c :: t) then
      1 + countSubF n fuel ((c :: t).drop n.length)
    else
      countSubF n fuel t

/-- Python `hay.count(needle)`: number of non-overlapping occurrences,
scanning left to right (after a hit the scan resumes past the match). -/
def countSub (n h : List Char) : Nat := countSubF n h.length h

/-- Python `str.split()` word chunks: maximal runs of non-whitespace.
`acc` is the (reversed) current run. Only the number of words is ever
used by the detector (`len(message.split())`). -/
def splitWordsAux : List Char → List Char → List (List Char)
  | [], acc => if acc.isEmpty then [] else [acc.reverse]
  | c :: t, acc =>
    if c.isWhitespace then
      if acc.isEmpty then splitWordsAux t [] else acc.reverse :: splitWordsAux t []
    else
      splitWordsAux t (c :: acc)

/-- Python `str.split()` (split on whitespace runs, no empty words). -/
def splitWords (s : List Char) : List (List Char) := splitWordsAux s []

/-- Lowercase a string into a character list (Python `str.lower()`;
the source messages and all table entries are ASCII). -/
def toLowerList (s : String) : List Char := s.toList.map Char.toLower

/-- One token of the regex subset used by the source tables. -/
inductive RTok where
  /-- literal text -/
  | lit : String → RTok
  /-- alternation group `(a|b|c)` of literal alternatives -/
  | alts : List String → RTok
  /-- optional literal `(x )?` -/
  | opt : String → RTok
  /-- The `\w+` (one or more word characters) -/
  | word : RTok
deriving DecidableEq

/-- The `\w` of Python `re`: letters, digits or underscore (ASCII inputs). -/
def isWordChar (c : Char) : Bool := c.isAlphanum || c == '_'

/-- Size measure used for termination of the matcher. -/
def rtokSize : RTok → Nat
  | .alts xs => xs.length + 1
  | _ => 1

/-- Total size of a token list (termination measure). -/
def sizeToks (l : List RTok) : Nat := (l.map rtokSize).sum

/-- Fuelled matcher for a token sequence against an initial segment of `h`
(backtracking where the subset needs it: alternatives and `\w+`). Every
recursive call strictly decreases `2 * h.length + sizeToks ts`, so the
fuel supplied by `matchToks` below always suffices; the fuel only makes
the recursion structural (so that proofs can evaluate it). -/
def matchToksF : Nat → List RTok → List Char → Bool
  | 0, _, _ => false
  | _ + 1, [], _ => true
  | fuel + 1, .lit s :: ts, h =>
    headMatch s.toList h && matchToksF fuel ts (h.drop s.toList.length)
  | _ + 1, .alts [] :: _, _ => false
  | fuel + 1, .alts (x :: xs) :: ts, h =>
    (headMatch x.toList h && matchToksF fuel ts (h.drop x.toList.length)) ||
      matchToksF fuel (.alts xs :: ts) h
  | fuel + 1, .opt s :: ts, h =>
    matchToksF fuel ts h || (headMatch s.toList h && matchToksF fuel ts (h.drop s.toList.length))
  | _ + 1, .word :: _, [] => false
  | fuel + 1, .word :: ts, c :: h =>
    isWordChar c && (matchToksF fuel ts h || matchToksF fuel (.word :: ts) h)

/-- Match a token sequence against an initial segment of `h`. -/
def matchToks (ts : List RTok) (h : List Char) : Bool :=
  matchToksF (2 * h.length + sizeToks ts + 1) ts h

/-- Python `re.search(pattern, s)`: the token sequence matches starting at
some position of `s`. -/
def rsearch (p : List RTok) : List Char → Bool
  | [] => matchToks p []
  | c :: t => matchToks p (c :: t) || rsearch p t

example : containsSub "trust me".toList "you can trust me".toList = true := by decide
example : containsSub "secret".toList "no secrets".toList = true := by decide
example : containsSub "meet".toList "i met you".toList = false := by decide
example : countSub "aa".toList "aaaa".toList = 2 := by decide
example : (splitWords "  hello  there world ".toList).length = 3 := by decide
example : rsearch [.lit "keep this ", .alts ["secret", "between us"]]
    "please keep this between us ok".toList = true := by decide
example : rsearch [.lit "nobody ", .opt "else ", .lit "knows"]
    "nobody knows".toList = true := by decide
example : rsearch [.lit "nobody ", .opt "else ", .lit "knows"]
    "nobody else knows".toList = true := by decide
example : rsearch [.lit "not like other ", .word, .lit " your age"]
    "you are not like other kids your age".toList = true := by decide
example : rsearch [.lit "not like other ", .word, .lit " your age"]
    "not like other  your age".toList = false := by decide

/-! Section: Data model of the detector (grooming_detector.py) -/

/-- The `RiskLevel` enum of the detector. -/
inductive RiskLevel where
  | low
  | medium
  | high
  | critical
deriving DecidableEq

/-- The `GroomingPattern` enum, in source declaration order. The enumeration is
closed and has exactly ten members. -/
inductive GroomingPattern where
  | trust_building
  | isolation
  | dependency
  | risk_assessment
  | exclusivity
  | sexual_content
  | meeting_request
  | secrecy
  | gift_offering
  | personal_info_request
deriving DecidableEq, Fintype

/-- One entry of the `_load_grooming_patterns` table: keyword substrings,
regex phrases and the pattern weight. -/
structure PatternConfig where
  keywords : List String
  phrases : List (List RTok)
  weight : ℚ
deriving DecidableEq

/-- The `GroomingDetector._load_grooming_patterns`, in source (dict insertion)
order. Note that the table defines entries for only eight of the ten
`GroomingPattern` members: `risk_assessment` and `exclusivity` have no
keywords or phrases anywhere in the source. -/
def grooming_patterns : List (GroomingPattern × PatternConfig) :=
  [ (.trust_building,
     { keywords :=
        [ "trust me", "you can tell me anything", "i understand you",
          "nobody understands you like i do", aw "you" "re so mature",
          aw "you" "re different from other kids", "special connection",
          "i care about you", aw "you" "re so smart", "wise beyond your years" ],
       phrases :=
        [ [.lit "you can trust me"],
          [.lit "i would never hurt you"],
          [.lit (aw "you" "re so mature for your age")],
          [.lit "nobody gets you like i do"],
          [.lit (aw "you" "re not like other "), .word, .lit " your age"] ],
       weight := 7/10 }),
    (.isolation,
     { keywords :=
        [ aw "don" "t tell", "keep this between us", "our secret",
          aw "your parents wouldn" "t understand", aw "they don" "t get you",
          "nobody else needs to know", "just between you and me",
          "your friends are jealous", aw "they" "re trying to control you" ],
       phrases :=
        [ [.lit (aw "don" "t tell "), .alts ["anyone", "your parents", "your friends"]],
          [.lit "keep this ", .alts ["secret", "between us"]],
          [.lit "your ", .alts ["parents", "family"], .lit " ",
           .alts [aw "wouldn" "t", aw "don" "t"], .lit " understand"],
          [.lit (aw "they" "re just trying to control you")],
          [.lit (aw "you don" "t need them")] ],
       weight := 9/10 }),
    (.dependency,
     { keywords :=
        [ aw "i" "m here for you", "you need me", aw "i" "m the only one",
          "depend on me", aw "i" "ll take care of you", "you can rely on me",
          aw "i" "ll protect you", aw "i" "m all you need", "lean on me" ],
       phrases :=
        [ [.lit (aw "i" "m "), .alts ["here", "there"], .lit " for you"],
          [.lit "you ", .alts ["need", "can depend on"], .lit " me"],
          [.lit (aw "i" "ll "), .alts ["take care of", "protect"], .lit " you"],
          [.lit (aw "i" "m "), .alts ["all you need", "the only one"]] ],
       weight := 8/10 }),
    (.sexual_content,
     { keywords :=
        [ "sexy", "hot", "beautiful body", "mature", "developed",
          "curious about sex", "sexual experience", "intimate",
          "physical relationship", "body", "private parts" ],
       phrases :=
        [ [.lit (aw "you" "re so "), .alts ["sexy", "hot", "beautiful"]],
          [.lit "have you ever ", .alts ["kissed", "been intimate"]],
          [.lit "curious about ", .alts ["sex", "your body"]],
          [.lit "want to ", .alts ["touch", "feel", "see"], .lit " you"],
          [.lit "show me your"] ],
       weight := 1 }),
    (.meeting_request,
     { keywords :=
        [ "meet in person", "come over", "visit me", "hang out",
          "see you alone", "private meeting", "just us two",
          "pick you up", "come to my place", "meet somewhere" ],
       phrases :=
        [ [.lit "want to meet ", .alts ["in person", "up"]],
          [.lit "come ", .alts ["over", "to my place"]],
          [.lit "see you ", .alts ["alone", "in private"]],
          [.lit "pick you up"],
          [.lit (aw "let" "s meet "), .alts ["somewhere", "at"]] ],
       weight := 19/20 }),
    (.secrecy,
     { keywords :=
        [ "secret", aw "don" "t tell anyone", "between us", "private",
          "confidential", "our little secret", "keep quiet",
          aw "don" "t mention", "nobody knows", "just for us" ],
       phrases :=
        [ [.alts ["keep", "this is"], .lit " ", .alts ["our", "a"], .lit " secret"],
          [.lit (aw "don" "t "), .alts ["tell", "mention"], .lit " ", .alts ["this", "anyone"]],
          [.lit "between ", .alts ["you and me", "us"]],
          [.lit "nobody ", .opt "else ", .lit "knows"],
          [.lit "keep ", .alts ["this", "it"], .lit " ", .alts ["quiet", "private"]] ],
       weight := 17/20 }),
    (.gift_offering,
     { keywords :=
        [ "buy you", "gift for you", "present", "money",
          "treat you", "spoil you", "get you something",
          "surprise for you", "special gift", "reward" ],
       phrases :=
        [ [.alts ["buy", "get"], .lit " you ", .alts ["something", "a gift"]],
          [.lit "have a ", .alts ["present", "surprise"], .lit " for you"],
          [.lit "want to ", .alts ["treat", "spoil"], .lit " you"],
          [.lit "give you ", .alts ["money", "cash"]],
          [.lit "special ", .alts ["gift", "present"], .lit " for you"] ],
       weight := 3/5 }),
    (.personal_info_request,
     { keywords :=
        [ "where do you live", "what school", "home address",
          "phone number", "when are you alone", "parents work",
          "schedule", "routine", aw "when nobody" "s home" ],
       phrases :=
        [ [.lit "where do you ", .alts ["live", "go to school"]],
          [.lit (aw "what" "s your "), .alts ["address", "phone number"]],
          [.lit "when are you ", .alts ["alone", "home alone"]],
          [.lit "when do your parents ", .alts ["work", "leave"]],
          [.lit (aw "what" "s your "), .alts ["schedule", "routine"]] ],
       weight := 8/10 }) ]

/-- The `GroomingDetector._load_risk_keywords` (keyword → weight). -/
def risk_keywords : List (String × ℚ) :=
  [ ("nude", 1), ("naked", 1), ("undress", 1), ("strip", 1),
    ("webcam", 4/5), ("camera", 3/5), ("photo", 1/2), ("picture", 2/5),
    ("secret", 7/10), ("private", 1/2), ("alone", 3/5), ("meet", 7/10),
    ("age", 2/5), ("mature", 3/5), ("special", 1/2), ("different", 2/5),
    ("understand", 1/2), ("trust", 3/5), ("love", 1/2), ("care", 2/5),
    ("address", 4/5), ("location", 7/10), ("home", 1/2), ("school", 3/5),
    ("parents", 2/5), ("family", 2/5), ("friends", 3/10),
    ("money", 7/10), ("gift", 3/5), ("buy", 1/2), ("present", 3/5),
    ("treat", 1/2), ("spoil", 3/5), ("reward", 1/2),
    ("delete", 7/10), ("hide", 7/10), ("clear", 1/2), ("erase", 7/10),
    ("history", 3/5), ("messages", 2/5), ("chat", 3/10) ]

/-- Excessive-compliment regexes of `_analyze_linguistics`. -/
def compliment_patterns : List (List RTok) :=
  [ [.lit (aw "you" "re so "), .alts ["beautiful", "pretty", "cute", "smart", "mature", "special"]],
    [.alts ["beautiful", "gorgeous", "stunning", "amazing"], .lit " ", .alts ["girl", "boy", "kid"]],
    [.lit "you look ", .alts ["amazing", "beautiful", "gorgeous", "stunning"]] ]

/-- Emotional-manipulation regexes of `_analyze_linguistics`. -/
def manipulation_patterns : List (List RTok) :=
  [ [.alts ["nobody", "no one"], .lit " ", .alts ["understands", "gets", "loves"], .lit " you like"],
    [.lit (aw "you" "re "), .alts ["different", "special", "unique"], .lit " from"],
    [.lit (aw "i" "m the only one who")],
    [.lit "you can only trust me"] ]

/-- Urgency/pressure regexes of `_analyze_linguistics`. -/
def urgency_patterns : List (List RTok) :=
  [ [.alts ["right now", "immediately", "quickly", "hurry"]],
    [.lit "before ", .alts ["anyone", "someone", "they"]],
    [.lit (aw "don" "t "), .alts ["wait", "hesitate", "think"]] ]

/-! Section: Detector functions -/

/-- Python truthiness of an optional int (`if not sender_age` in
`_analyze_age_gap`): `None` and `0` are both falsy. -/
def int_falsy : Option Int → Bool
  | none => true
  | some n => n == 0

/-- Python truthiness of an optional string (`if conversation_id:`):
`None` and the empty string are falsy. -/
def strTruthy : Option String → Bool
  | none => false
  | some s => !s.isEmpty

/-- The `GroomingDetector._analyze_age_gap`. -/
def analyze_age_gap (sender_age recipient_age : Option Int) : ℚ :=
  if int_falsy sender_age || int_falsy recipient_age then 0
  else
    let age_gap := (sender_age.getD 0 - recipient_age.getD 0).natAbs
    if recipient_age.getD 0 < 18 then
      if 10 ≤ age_gap then 8/10
      else if 5 ≤ age_gap then 1/2
      else if 3 ≤ age_gap then 3/10
      else 0
    else 0

/-- The `GroomingDetector._detect_pattern`: accumulate `(score, matches)` over the
keyword substrings (0.1 each) and the regex phrases (0.3 each), then clamp
the score to 1 when there was at least one match. -/
def detect_pattern (message : List Char) (config : PatternConfig) : ℚ :=
  let p1 := config.keywords.foldl
    (fun p kw => if containsSub kw.toList message then (p.1 + 1/10, p.2 + 1) else p)
    ((0 : ℚ), (0 : ℕ))
  let p2 := config.phrases.foldl
    (fun p ph => if rsearch ph message then (p.1 + 3/10, p.2 + 1) else p) p1
  if 0 < p2.2 then min p2.1 1 else p2.1

/-- The `GroomingDetector._analyze_keywords`: weighted risk-keyword hits with a
repetition multiplier `1 + 0.2 (count − 1)`, normalized by word count and
scale factor 10, clamped to 1. -/
def analyze_keywords (message : List Char) : ℚ :=
  let word_count := (splitWords message).length
  let raw := risk_keywords.foldl
    (fun acc kv =>
      if containsSub kv.1.toList message then
        let frequency := countSub kv.1.toList message
        let context_multiplier : ℚ :=
          if 1 < frequency then 1 + ((frequency : ℚ) - 1) * (2/10) else 1
        acc + kv.2 * context_multiplier
      else acc) 0
  let total_score := if 0 < word_count then raw / (word_count : ℚ) * 10 else raw
  min total_score 1

/-- The `GroomingDetector._analyze_linguistics`: compliment hits add 0.2,
manipulation hits 0.3, urgency hits 0.2; clamp to 1. The source matches
the raw message with `re.IGNORECASE`; the embedding receives the
lowercased message, which is equivalent for these all-lowercase tables. -/
def analyze_linguistics (message : List Char) : ℚ :=
  let s1 := compliment_patterns.foldl
    (fun acc p => if rsearch p message then acc + 2/10 else acc) 0
  let s2 := manipulation_patterns.foldl
    (fun acc p => if rsearch p message then acc + 3/10 else acc) s1
  let s3 := urgency_patterns.foldl
    (fun acc p => if rsearch p message then acc + 2/10 else acc) s2
  min s3 1

/-- Per-conversation mutable state kept in
`GroomingDetector.conversation_context[conversation_id]`. -/
structure ConversationContext where
  messages : List String
  patterns_history : List GroomingPattern
  escalation_score : ℚ
deriving DecidableEq

/-- The state a conversation context is lazily created with. -/
def emptyContext : ConversationContext :=
  { messages := [], patterns_history := [], escalation_score := 0 }

/-- The fixed grooming progression of `_analyze_conversation_context`. -/
def pattern_sequence : List GroomingPattern :=
  [.trust_building, .isolation, .dependency, .sexual_content, .meeting_request]

/-- The `GroomingDetector._analyze_conversation_context` for one conversation:
append the message and the current patterns to the context, add 0.2 for
every adjacent progression pair whose first member is anywhere in the
(just-extended) history and whose second member is among the current
patterns, add a flat 0.1 once more than 10 messages have been seen, and
store (replace) the escalation score. Returns (score, new context). -/
def analyze_conversation_context (message : String) (ctx : ConversationContext)
    (current_patterns : List GroomingPattern) : ℚ × ConversationContext :=
  let ctx1 := { ctx with
    messages := ctx.messages ++ [message],
    patterns_history := ctx.patterns_history ++ current_patterns }
  let esc1 := (pattern_sequence.zip pattern_sequence.tail).foldl
    (fun acc pq =>
      if pq.1 ∈ ctx1.patterns_history ∧ pq.2 ∈ current_patterns then acc + 2/10 else acc) 0
  let esc2 := if 10 < ctx1.messages.length then esc1 + 1/10 else esc1
  (esc2, { ctx1 with escalation_score := esc2 })

/-- The `GroomingDetector._calculate_risk_level`: first matching row of the
top-down threshold table wins; the terminal default is `low` with
confidence 0.1. -/
def calculate_risk_level (total_score : ℚ) (pattern_count : ℕ) : RiskLevel × ℚ :=
  let adjusted_score := total_score + (pattern_count : ℚ) * (1/10)
  let confidence := min (adjusted_score * (8/10) + (pattern_count : ℚ) * (5/100)) 1
  if 8/10 ≤ adjusted_score ∨ 4 ≤ pattern_count then (.critical, confidence)
  else if 6/10 ≤ adjusted_score ∨ 3 ≤ pattern_count then (.high, confidence)
  else if 4/10 ≤ adjusted_score ∨ 2 ≤ pattern_count then (.medium, confidence)
  else if 2/10 ≤ adjusted_score ∨ 1 ≤ pattern_count then (.low, confidence)
  else (.low, 1/10)

/-- The `GroomingPattern.value` (the Python enum string value). -/
def pattern_value : GroomingPattern → String
  | .trust_building => "trust_building"
  | .isolation => "isolation"
  | .dependency => "dependency"
  | .risk_assessment => "risk_assessment"
  | .exclusivity => "exclusivity"
  | .sexual_content => "sexual_content"
  | .meeting_request => "meeting_request"
  | .secrecy => "secrecy"
  | .gift_offering => "gift_offering"
  | .personal_info_request => "personal_info_request"

/-- The `p.value.replace(UNDERSCORE, SPACE).title()` as used in explanations. -/
def pattern_title : GroomingPattern → String
  | .trust_building => "Trust Building"
  | .isolation => "Isolation"
  | .dependency => "Dependency"
  | .risk_assessment => "Risk Assessment"
  | .exclusivity => "Exclusivity"
  | .sexual_content => "Sexual Content"
  | .meeting_request => "Meeting Request"
  | .secrecy => "Secrecy"
  | .gift_offering => "Gift Offering"
  | .personal_info_request => "Personal Info Request"

/-- Deterministic rendering of a rational, standing in for CPython float
formatting in f-strings. The exact digits CPython prints are not modelled;
every property proved here uses only that the rendering is a function of
the value. -/
def fmtQ (q : ℚ) : String := toString q.num ++ "/" ++ toString q.den

/-- Stand-in for `hashlib.md5(message.encode()).hexdigest()`: an arbitrary
deterministic function of the message. No claim depends on hash values,
only on the field being a function of the message. -/
def md5_hex (s : String) : String := s

/-- The `GroomingDetector._generate_explanation`. -/
def generate_explanation (patterns : List GroomingPattern)
    (_risk_factors : List String) (score : ℚ) : String :=
  if patterns.isEmpty then "No significant grooming patterns detected in this message."
  else
    let e1 := "Analysis detected " ++ toString patterns.length ++
      " potential grooming pattern(s) with an overall risk score of " ++ fmtQ score ++ ". "
    let e2 := e1 ++ "Detected patterns include: " ++
      String.intercalate ", " (patterns.map pattern_title) ++ ". "
    if 3/5 < score then
      e2 ++ "This message shows multiple indicators of potential grooming behavior and requires immediate attention."
    else if 2/5 < score then
      e2 ++ "This message contains concerning elements that warrant careful monitoring."
    else
      e2 ++ "This message shows some risk indicators but may be within normal communication patterns."

/-- The `GroomingDetector._generate_recommendations`. -/
def generate_recommendations (risk_level : RiskLevel)
    (patterns : List GroomingPattern) : List String :=
  let base : List String :=
    match risk_level with
    | .critical =>
      [ "IMMEDIATE ACTION REQUIRED: Contact law enforcement",
        "Preserve all evidence and conversation history",
        aw "Ensure child" "s immediate safety",
        "Block the sender immediately",
        "Seek professional counseling support" ]
    | .high =>
      [ "Alert guardians/parents immediately",
        "Document and preserve the conversation",
        "Consider blocking the sender",
        "Monitor all future communications closely",
        "Consult with child protection services" ]
    | .medium =>
      [ "Notify guardians/parents",
        "Increase monitoring frequency",
        "Document the conversation for future reference",
        "Discuss online safety with the child" ]
    | .low =>
      [ "Continue routine monitoring",
        "Log the interaction for pattern analysis",
        "Consider discussing online communication safety" ]
  let r1 := if GroomingPattern.meeting_request ∈ patterns then
      base ++ ["URGENT: Meeting request detected - prevent any in-person contact"] else base
  let r2 := if GroomingPattern.sexual_content ∈ patterns then
      r1 ++ ["Sexual content detected - consider immediate intervention"] else r1
  if GroomingPattern.secrecy ∈ patterns then
    r2 ++ ["Secrecy patterns detected - discuss open communication with child"] else r2

/-- The per-message result produced by `analyze_message`
(`DetectionResult` dataclass). -/
structure DetectionResult where
  risk_level : RiskLevel
  confidence : ℚ
  patterns_detected : List GroomingPattern
  risk_factors : List String
  explanation : String
  recommendations : List String
  timestamp : ℚ
  message_hash : String
deriving DecidableEq

/-- The pattern-detection loop of `analyze_message`: returns the detected
patterns (in table order), the per-pattern risk-factor strings and the
summed weighted pattern contribution to the total risk score. -/
def patternScan (message_lower : List Char) :
    List GroomingPattern × List String × ℚ :=
  grooming_patterns.foldl
    (fun acc pc =>
      let pattern_score := detect_pattern message_lower pc.2
      if 3/10 < pattern_score then
        (acc.1 ++ [pc.1],
         acc.2.1 ++ [pattern_value pc.1 ++ ": " ++ fmtQ pattern_score],
         acc.2.2 + pattern_score * pc.2.weight)
      else acc)
    ([], [], 0)

/-- The scoring pipeline of `analyze_message` up to (and excluding) risk-level
resolution: total risk score, detected patterns, risk factors, and the
(possibly updated) conversation context. -/
def scoreMessage (message : String) (sender_age recipient_age : Option Int)
    (conversation_id : Option String) (ctx : ConversationContext) :
    ℚ × List GroomingPattern × List String × ConversationContext :=
  let message_lower := toLowerList message
  let age_gap_risk := analyze_age_gap sender_age recipient_age
  let risk0 : List String :=
    if 0 < age_gap_risk then ["Significant age gap detected: " ++ fmtQ age_gap_risk] else []
  let total0 : ℚ := if 0 < age_gap_risk then age_gap_risk * (3/10) else 0
  let scan := patternScan message_lower
  let detected := scan.1
  let risk1 := risk0 ++ scan.2.1
  let total1 := total0 + scan.2.2
  let keyword_score := analyze_keywords message_lower
  let risk2 := if 2/10 < keyword_score then
      risk1 ++ ["Risk keywords detected: " ++ fmtQ keyword_score] else risk1
  let total2 := if 2/10 < keyword_score then total1 + keyword_score * (4/10) else total1
  let linguistic_score := analyze_linguistics message_lower
  let risk3 := if 3/10 < linguistic_score then
      risk2 ++ ["Suspicious linguistic patterns: " ++ fmtQ linguistic_score] else risk2
  let total3 := if 3/10 < linguistic_score then total2 + linguistic_score * (3/10) else total2
  let step4 :=
    if strTruthy conversation_id then
      let cc := analyze_conversation_context message ctx detected
      (total3 + cc.1 * (2/10), cc.2)
    else (total3, ctx)
  (step4.1, detected, risk3, step4.2)

/-- The `GroomingDetector.analyze_message`. The wall clock of
`datetime.now()` is the explicit argument `now`; the per-conversation
mutable state is the explicit argument `ctx` (the context stored under
`conversation_id`), returned updated. -/
def analyze_message (message : String) (sender_age recipient_age : Option Int)
    (conversation_id : Option String) (ctx : ConversationContext) (now : ℚ) :
    DetectionResult × ConversationContext :=
  let s := scoreMessage message sender_age recipient_age conversation_id ctx
  let total_risk_score := s.1
  let detected_patterns := s.2.1
  let risk_factors := s.2.2.1
  let rl := calculate_risk_level total_risk_score detected_patterns.length
  ({ risk_level := rl.1,
     confidence := rl.2,
     patterns_detected := detected_patterns,
     risk_factors := risk_factors,
     explanation := generate_explanation detected_patterns risk_factors total_risk_score,
     recommendations := generate_recommendations rl.1 detected_patterns,
     timestamp := now,
     message_hash := md5_hex message }, s.2.2.2)

/-! Section: Rate limiting (real_time_monitor.py) -/

/-- The `AlertSeverity` enum of the monitor. -/
inductive AlertSeverity where
  | low
  | medium
  | high
  | critical
  | emergency
deriving DecidableEq

/-- An alert-intent as far as the rate limiter is concerned: severity and
`alert_type` of the `RealTimeAlert` queued by `_trigger_rate_limit_alert`. -/
def rateLimitAlert : AlertSeverity × String := (.medium, "unusual_activity")

/-- Append to `self.rate_limits[session_id]`, a `deque(maxlen=100)`:
push right, dropping from the left beyond 100 entries. -/
def pushRate (st : List ℚ) (t : ℚ) : List ℚ :=
  let st1 := st ++ [t]
  if 100 < st1.length then st1.drop (st1.length - 100) else st1

/-- The `RealTimeMonitor._check_rate_limits` for one session: append the current
timestamp, then count the timestamps strictly less than 60 seconds old;
strictly more than 10 of them triggers the rate-limit alert. Returns the
new window and whether `_trigger_rate_limit_alert` fires. -/
def check_rate_limits (st : List ℚ) (current_time : ℚ) : List ℚ × Bool :=
  let st1 := pushRate st current_time
  let recent_messages := st1.filter (fun t => current_time - t < 60)
  (st1, decide (10 < recent_messages.length))

/-- Process a list of message timestamps (arrival order) through
`_check_rate_limits` for one active session, collecting the emitted
"unusual activity" alert-intents. -/
def runRate (ts : List ℚ) : List ℚ × List (AlertSeverity × String) :=
  ts.foldl
    (fun acc t =>
      let c := check_rate_limits acc.1 t
      (c.1, if c.2 then acc.2 ++ [rateLimitAlert] else acc.2))
    ([], [])

/-! Section: Alert manager (alert_manager.py) -/

/-- The `AlertStatus` enum of the alert manager. It has exactly these six
members; in particular there is no false-positive status. -/
inductive AlertStatus where
  | active
  | acknowledged
  | investigating
  | resolved
  | escalated
  | dismissed
deriving DecidableEq, Fintype

/-- The `EscalationLevel` enum of the alert manager. -/
inductive EscalationLevel where
  | guardian
  | family_admin
  | system_admin
  | law_enforcement
  | emergency_services
deriving DecidableEq

/-- The reason string of the escalation-timer callback. -/
def timeoutReason : String := "Automatic escalation due to timeout"

/-- State of one alert inside the manager, restricted to the fields the
claims are about. `timer_armed` models `alert_id ∈ self.escalation_timers`
with a pending (not yet fired, not cancelled) `escalation_callback` task;
`timeout_escalations` counts executions of the escalation action inside
that callback. `response_times`, `resolved_count` and `escalated_count`
model the corresponding entries of `self.stats`. -/
structure AlertSys where
  status : AlertStatus
  escalation_level : EscalationLevel
  created_at : ℚ
  updated_at : ℚ
  updated_by : Option String
  auto_escalate : Bool
  response_required : Bool
  timer_armed : Bool
  timeout_escalations : ℕ
  escalations : List (EscalationLevel × String)
  response_times : List ℚ
  resolved_count : ℕ
  escalated_count : ℕ
deriving DecidableEq

/-- The `AlertManager.escalate_alert` on an existing alert: set the level and
the `escalated` status, stamp the update time and append an escalation
record. (It does not touch the escalation timer.) -/
def escalate_alert (a : AlertSys) (level : EscalationLevel) (reason : String)
    (now : ℚ) : AlertSys :=
  { a with
    escalation_level := level,
    status := .escalated,
    updated_at := now,
    escalations := a.escalations ++ [(level, reason)] }

/-- The `AlertManager.create_alert` restricted to one alert: a fresh alert is
`active` at level `guardian`; `_process_alert_rules` may escalate it
immediately (the default rule set does so for critical/emergency severity),
which `rule_escalate` models; afterwards the escalation timer is armed
exactly when `auto_escalate ∧ response_required`. -/
def create_alert (auto_escalate response_required : Bool)
    (rule_escalate : Option EscalationLevel) (now : ℚ) : AlertSys :=
  let base : AlertSys :=
    { status := .active,
      escalation_level := .guardian,
      created_at := now,
      updated_at := now,
      updated_by := none,
      auto_escalate := auto_escalate,
      response_required := response_required,
      timer_armed := false,
      timeout_escalations := 0,
      escalations := [],
      response_times := [],
      resolved_count := 0,
      escalated_count := 0 }
  let ruled :=
    match rule_escalate with
    | none => base
    | some level => escalate_alert base level "Critical threat detected" now
  { ruled with timer_armed := auto_escalate && response_required }

/-- The `AlertManager.update_alert_status` on an existing alert: the requested
status is applied unconditionally; only `resolved` additionally records the
response time `now − created_at` and cancels the escalation timer (if one
is present), and `escalated` bumps the escalated counter. -/
def update_alert_status (a : AlertSys) (status : AlertStatus) (user_id : String)
    (now : ℚ) : AlertSys :=
  let a1 := { a with status := status, updated_at := now, updated_by := some user_id }
  if status = .resolved then
    { a1 with
      resolved_count := a1.resolved_count + 1,
      response_times := a1.response_times ++ [now - a1.created_at],
      timer_armed := false }
  else if status = .escalated then
    { a1 with escalated_count := a1.escalated_count + 1 }
  else a1

/-- The `AlertManager.update_alert_status` at the manager boundary: returns
`False` (and changes nothing) when the alert id is unknown, `True` after
applying the update otherwise. -/
def update_alert_statusM (oa : Option AlertSys) (status : AlertStatus)
    (user_id : String) (now : ℚ) : Bool × Option AlertSys :=
  match oa with
  | none => (false, none)
  | some a => (true, some (update_alert_status a status user_id now))

/-- The escalation timer firing (`escalation_callback` after its sleep):
possible only while the timer task is pending; the callback re-checks the
status and escalates to `family_admin` with the timeout reason only if the
alert is still `active`, otherwise it completes silently. Either way the
timer task is consumed. -/
def timer_fire (a : AlertSys) (now : ℚ) : AlertSys :=
  if a.timer_armed then
    if a.status = .active then
      { escalate_alert a .family_admin timeoutReason now with
        timer_armed := false,
        timeout_escalations := a.timeout_escalations + 1 }
    else
      { a with timer_armed := false }
  else a

/-- One engine operation on an alert: a manual/API status update, a
manual/rule escalation, or the escalation timer firing. -/
inductive AlertOp where
  | update (status : AlertStatus) (user_id : String) (now : ℚ)
  | escalate (level : EscalationLevel) (reason : String) (now : ℚ)
  | fire (now : ℚ)

/-- Apply one operation to an alert. -/
def alertStep (a : AlertSys) : AlertOp → AlertSys
  | .update status user_id now => update_alert_status a status user_id now
  | .escalate level reason now => escalate_alert a level reason now
  | .fire now => timer_fire a now

/-- Apply a sequence of engine operations to an alert. -/
def runAlert (a : AlertSys) (ops : List AlertOp) : AlertSys :=
  ops.foldl alertStep a

/-! Section: Helper invariants for the alert state machine -/

/-- Joint timer invariant: a resolved alert has no pending timer, and the
number of executed timeout escalations plus the pending timer (if any)
never exceeds one. -/
def TimerInv (a : AlertSys) : Prop :=
  (a.status = .resolved → a.timer_armed = false) ∧
  a.timeout_escalations + (if a.timer_armed then 1 else 0) ≤ 1

theorem timerInv_create (auto_escalate response_required : Bool)
    (rule_escalate : Option EscalationLevel) (now : ℚ) :
    TimerInv (create_alert auto_escalate response_required rule_escalate now) := by
  cases rule_escalate <;>
    simp [TimerInv, create_alert, escalate_alert] <;>
    cases auto_escalate <;> cases response_required <;> simp

theorem timerInv_step (a : AlertSys) (op : AlertOp) (h : TimerInv a) :
    TimerInv (alertStep a op) := by
  obtain ⟨h1, h2⟩ := h
  have h2' : a.timeout_escalations ≤ 1 := by
    by_cases harm : a.timer_armed <;> simp [harm] at h2 <;> omega
  cases op with
  | update status user_id now =>
    by_cases hr : status = .resolved
    · constructor <;> simp [alertStep, update_alert_status, hr]
      exact h2'
    · by_cases he : status = .escalated <;>
        (constructor <;> simp [alertStep, update_alert_status, hr, he]) <;>
        by_cases harm : a.timer_armed <;> simp [harm] at h2 ⊢ <;> omega
  | escalate level reason now =>
    constructor <;> simp [alertStep, escalate_alert]
    by_cases harm : a.timer_armed <;> simp [harm] at h2 ⊢ <;> omega
  | fire now =>
    by_cases ha : a.timer_armed
    · simp [ha] at h2
      by_cases hs : a.status = .active <;>
        (constructor <;> simp [alertStep, timer_fire, escalate_alert, ha, hs]) <;>
        omega
    · simp only [alertStep, timer_fire, if_neg ha, Bool.false_eq_true]
      refine ⟨h1, h2⟩

theorem timerInv_run (a : AlertSys) (ops : List AlertOp) (h : TimerInv a) :
    TimerInv (runAlert a ops) := by
  induction ops generalizing a with
  | nil => exact h
  | cons op rest ih => exact ih _ (timerInv_step a op h)

/-! Section: Claim theorems: alert escalation engine -/

/-- C1 (counterexample): the claimed invariant "the escalation timer is
armed iff the alert status is `Active`" is false on the code: dismissing a
freshly created alert changes the status to `dismissed`, but
`update_alert_status` only cancels the timer on `resolved`, so the timer
stays armed. -/
theorem timer_not_cancelled_on_dismiss_cex :
    (runAlert (create_alert true true none 0) [.update .dismissed "guardian" 1]).status =
      AlertStatus.dismissed ∧
    (runAlert (create_alert true true none 0) [.update .dismissed "guardian" 1]).timer_armed =
      true := by
  exact ⟨rfl, rfl⟩

/-- C1 (amended): what the code actually maintains. The timer is cancelled
on the `resolved` transition (a resolved alert never has a pending timer),
and the timer is consumed at most once overall: the number of executed
timeout escalations plus the pending timer never exceeds one, so there is
no double-fire. Transitions to `escalated`, `dismissed`, `acknowledged` or
`investigating` leave the timer armed (a leak; the pending timer later
fires as a no-op), so "armed iff `Active`" does not hold. -/
theorem timer_cancellation_amended :
    ∀ (auto_escalate response_required : Bool) (rule_escalate : Option EscalationLevel)
      (t0 : ℚ) (ops : List AlertOp),
      ((runAlert (create_alert auto_escalate response_required rule_escalate t0) ops).status =
          AlertStatus.resolved →
        (runAlert (create_alert auto_escalate response_required rule_escalate t0) ops).timer_armed =
          false) ∧
      (runAlert (create_alert auto_escalate response_required rule_escalate t0) ops).timeout_escalations +
          (if (runAlert (create_alert auto_escalate response_required rule_escalate t0) ops).timer_armed
           then 1 else 0) ≤ 1 := by
  intro auto_escalate response_required rule_escalate t0 ops
  exact timerInv_run _ ops (timerInv_create auto_escalate response_required rule_escalate t0)

/-- Witness for `timer_cancellation_amended` at a concrete trace. -/
theorem timer_cancellation_amended_witness :
    (runAlert (create_alert true true none 0) [.update .resolved "guardian" 5]).timer_armed =
      false ∧
    (runAlert (create_alert true true none 0) [.update .resolved "guardian" 5]).timeout_escalations +
      (if (runAlert (create_alert true true none 0) [.update .resolved "guardian" 5]).timer_armed
       then 1 else 0) ≤ 1 := by
  have h := timer_cancellation_amended true true none 0 [.update .resolved "guardian" 5]
  exact ⟨h.1 (by decide), h.2⟩

/-- C2 (counterexample): `update_alert_status` does not validate
transitions. Resolving an alert and then updating it back to `active`
succeeds (returns `True`) and changes the alert, though the claim says an
illegal transition such as `Resolved → Active` is rejected and leaves the
alert unchanged. -/
theorem update_status_accepts_illegal_transition_cex :
    ((update_alert_statusM (update_alert_statusM (some (create_alert true true none 0))
        .resolved "moderator" 5).2 .active "moderator" 6).1 = true) ∧
    ((update_alert_statusM (some (create_alert true true none 0))
        .resolved "moderator" 5).2.map AlertSys.status = some AlertStatus.resolved) ∧
    ((update_alert_statusM (update_alert_statusM (some (create_alert true true none 0))
        .resolved "moderator" 5).2 .active "moderator" 6).2.map AlertSys.status =
      some AlertStatus.active) := by
  exact ⟨rfl, rfl, rfl⟩

/-- C2 (amended): `update_alert_status` performs no legality check: for an
existing alert it succeeds with any target status and applies it
unconditionally; it fails only when the alert id is unknown. Only the
`resolved` status cancels the escalation timer and records the response
latency `now − created_at`; and the `AlertStatus` enumeration has exactly
six members — there is no `FalsePositive` status in the code. -/
theorem update_status_amended :
    (∀ (a : AlertSys) (status : AlertStatus) (user_id : String) (now : ℚ),
      update_alert_statusM (some a) status user_id now =
        (true, some (update_alert_status a status user_id now)) ∧
      (update_alert_status a status user_id now).status = status ∧
      (update_alert_status a status user_id now).timer_armed =
        (if status = .resolved then false else a.timer_armed) ∧
      (update_alert_status a status user_id now).response_times =
        (if status = .resolved then a.response_times ++ [now - a.created_at]
         else a.response_times)) ∧
    (∀ (status : AlertStatus) (user_id : String) (now : ℚ),
      update_alert_statusM none status user_id now = (false, none)) ∧
    Fintype.card AlertStatus = 6 := by
  refine ⟨?_, fun _ _ _ => rfl, by decide⟩
  intro a status user_id now
  refine ⟨rfl, ?_, ?_, ?_⟩ <;>
    by_cases hr : status = .resolved <;>
    by_cases he : status = .escalated <;>
    simp [update_alert_status, hr, he]

/-- C3: across any operation sequence the timeout escalation executes at
most once; the timer callback firing on an alert that is no longer
`active` only consumes the timer task and changes nothing else (a silent
no-op); and firing on a still-`active` alert escalates it to
`family_admin` with the timeout reason, exactly once. -/
theorem escalation_timer_exactly_once :
    (∀ (auto_escalate response_required : Bool) (rule_escalate : Option EscalationLevel)
       (t0 : ℚ) (ops : List AlertOp),
      (runAlert (create_alert auto_escalate response_required rule_escalate t0) ops).timeout_escalations ≤ 1) ∧
    (∀ (a : AlertSys) (now : ℚ), a.status ≠ .active →
      timer_fire a now = { a with timer_armed := false }) ∧
    (∀ (a : AlertSys) (now : ℚ), a.timer_armed = true → a.status = .active →
      timer_fire a now =
        { escalate_alert a .family_admin timeoutReason now with
          timer_armed := false,
          timeout_escalations := a.timeout_escalations + 1 }) := by
  refine ⟨?_, ?_, ?_⟩
  · intro auto_escalate response_required rule_escalate t0 ops
    have h := timerInv_run _ ops (timerInv_create auto_escalate response_required rule_escalate t0)
    have h2 := h.2
    by_cases harm : (runAlert (create_alert auto_escalate response_required rule_escalate t0) ops).timer_armed <;>
      simp [harm] at h2 <;> omega
  · intro a now hs
    by_cases ha : a.timer_armed <;> cases a <;> simp_all [timer_fire]
  · intro a now ha hs
    simp [timer_fire, ha, hs]

/-- Witness for `escalation_timer_exactly_once` at concrete inputs. -/
theorem escalation_timer_exactly_once_witness :
    (runAlert (create_alert true true none 0) []).timeout_escalations ≤ 1 ∧
    timer_fire (update_alert_status (create_alert true true none 0) .dismissed "guardian" 1) 400 =
      { update_alert_status (create_alert true true none 0) .dismissed "guardian" 1 with
        timer_armed := false } ∧
    timer_fire (create_alert true true none 0) 400 =
      { escalate_alert (create_alert true true none 0) .family_admin timeoutReason 400 with
        timer_armed := false,
        timeout_escalations := (create_alert true true none 0).timeout_escalations + 1 } := by
  exact ⟨escalation_timer_exactly_once.1 true true none 0 [],
    escalation_timer_exactly_once.2.1 _ 400 (by decide),
    escalation_timer_exactly_once.2.2 _ 400 (by decide) (by decide)⟩

/-! Section: Claim theorems: risk level resolution and age gap -/

/-- C4: `_calculate_risk_level` resolves top-down with the first match
winning on `adjusted = total + 0.1·patternCount`: the result is `critical`
exactly when `adjusted ≥ 0.8` or `patternCount ≥ 4`; in particular four
detected patterns force `critical` even when `adjusted < 0.8` (here
`total = 0.3`, `adjusted = 0.7`). -/
theorem risk_level_resolution :
    (∀ (total_score : ℚ) (pattern_count : ℕ),
      (calculate_risk_level total_score pattern_count).1 = .critical ↔
        (8/10 ≤ total_score + (pattern_count : ℚ) * (1/10) ∨ 4 ≤ pattern_count)) ∧
    (calculate_risk_level (3/10) 4).1 = .critical ∧
    (3/10 : ℚ) + (4 : ℚ) * (1/10) < 8/10 := by
  refine ⟨?_, by with_unfolding_all decide, by norm_num⟩
  intro total_score pattern_count
  by_cases h : 8/10 ≤ total_score + (pattern_count : ℚ) * (1/10) ∨ 4 ≤ pattern_count
  · simp only [calculate_risk_level]
    rw [if_pos h]
    exact iff_of_true rfl h
  · simp only [calculate_risk_level]
    rw [if_neg h]
    split_ifs <;> exact iff_of_false (by simp) h

/-- C10: `_analyze_age_gap` begins with Python truthiness checks
(`if not sender_age or not recipient_age`), so an age equal to 0 is
treated exactly like an absent age and the age-gap factor contributes 0 —
even though `recipient_age = 0` satisfies `recipient_age < 18` and can
form a gap of 10 or more. The whole analysis result is unchanged when a
0 age is replaced by an absent one. -/
theorem age_zero_is_unknown :
    (∀ sender_age : Option Int, analyze_age_gap sender_age (some 0) = 0) ∧
    (∀ recipient_age : Option Int, analyze_age_gap (some 0) recipient_age = 0) ∧
    (∀ (message : String) (sender_age : Option Int) (conversation_id : Option String)
        (ctx : ConversationContext) (now : ℚ),
      analyze_message message sender_age (some 0) conversation_id ctx now =
        analyze_message message sender_age none conversation_id ctx now) ∧
    (∀ (message : String) (recipient_age : Option Int) (conversation_id : Option String)
        (ctx : ConversationContext) (now : ℚ),
      analyze_message message (some 0) recipient_age conversation_id ctx now =
        analyze_message message none recipient_age conversation_id ctx now) := by
  have hr : ∀ sender_age : Option Int,
      analyze_age_gap sender_age (some 0) = analyze_age_gap sender_age none := by
    intro sa
    simp [analyze_age_gap, int_falsy]
  have hl : ∀ recipient_age : Option Int,
      analyze_age_gap (some 0) recipient_age = analyze_age_gap none recipient_age := by
    intro ra
    simp [analyze_age_gap, int_falsy]
  refine ⟨?_, ?_, ?_, ?_⟩
  · intro sa
    rw [hr]
    simp [analyze_age_gap, int_falsy]
  · intro ra
    rw [hl]
    simp [analyze_age_gap, int_falsy]
  · intro message sa cid ctx now
    simp only [analyze_message, scoreMessage, hr]
  · intro message ra cid ctx now
    simp only [analyze_message, scoreMessage, hl]

/-! Section: Claim theorems: conversation escalation aggregator -/

/-- Folding `acc + c` over the elements satisfying `P` counts them. -/
theorem foldl_add_count {α : Type} (l : List α) (P : α → Prop) [DecidablePred P]
    (c : ℚ) (a : ℚ) :
    l.foldl (fun acc x => if P x then acc + c else acc) a =
      a + c * (l.countP (fun x => decide (P x)) : ℚ) := by
  induction l generalizing a with
  | nil => simp
  | cons x t ih =>
    by_cases h : P x
    · simp only [List.foldl_cons, if_pos h, List.countP_cons, ih]
      simp only [h, decide_eq_true_eq, if_true, iff_true]
      push_cast
      ring
    · simp only [List.foldl_cons, if_neg h, List.countP_cons, ih]
      simp [h]

/-- C7: `_analyze_conversation_context` appends the message and the current
patterns to the conversation state, and returns an escalation bonus that is
0.2 per adjacent progression pair `(Pᵢ, Pᵢ₊₁)` with `Pᵢ` anywhere in the
(post-append) history and `Pᵢ₊₁` among the current patterns, plus a flat
0.1 once the conversation has seen more than 10 messages. The stored
escalation score is replaced by the returned bonus (the previous stored
score does not enter the computation). -/
theorem conversation_escalation_bonus :
    ∀ (message : String) (ctx : ConversationContext) (current_patterns : List GroomingPattern),
      (analyze_conversation_context message ctx current_patterns).2.patterns_history =
          ctx.patterns_history ++ current_patterns ∧
      (analyze_conversation_context message ctx current_patterns).2.messages =
          ctx.messages ++ [message] ∧
      (analyze_conversation_context message ctx current_patterns).1 =
          (2/10) * ((pattern_sequence.zip pattern_sequence.tail).countP
            (fun pq => decide (pq.1 ∈ ctx.patterns_history ++ current_patterns ∧
                               pq.2 ∈ current_patterns)) : ℚ) +
          (if 10 < ctx.messages.length + 1 then 1/10 else 0) ∧
      (analyze_conversation_context message ctx current_patterns).2.escalation_score =
          (analyze_conversation_context message ctx current_patterns).1 ∧
      (∀ x : ℚ, (analyze_conversation_context message
          { ctx with escalation_score := x } current_patterns).1 =
          (analyze_conversation_context message ctx current_patterns).1) := by
  intro message ctx current_patterns
  refine ⟨rfl, rfl, ?_, rfl, fun x => rfl⟩
  simp only [analyze_conversation_context]
  rw [foldl_add_count]
  simp [List.length_append]
  split_ifs <;> ring


/-! Section: Claim theorems: rate limiting -/

/-- While at most 10 timestamps have been seen in total, `_check_rate_limits`
never triggers: the window holds at most 10 entries, so the strict
`> 10` threshold cannot be met, whatever the timestamps are. -/
theorem runRate_no_alert_low (ts : List ℚ) :
    ∀ (st : List ℚ) (al : List (AlertSeverity × String)),
      st.length + ts.length ≤ 10 →
      ts.foldl
        (fun acc t =>
          let c := check_rate_limits acc.1 t
          (c.1, if c.2 then acc.2 ++ [rateLimitAlert] else acc.2)) (st, al) =
        (st ++ ts, al) := by
  induction ts with
  | nil => intro st al _; simp
  | cons t rest ih =>
    intro st al h
    simp only [List.length_cons] at h
    have hpush : pushRate st t = st ++ [t] := by
      unfold pushRate
      rw [if_neg]
      simp only [List.length_append, List.length_cons, List.length_nil]
      omega
    have hno : ¬ (10 < ((st ++ [t]).filter (fun x => decide (t - x < 60))).length) := by
      have hlf := List.length_filter_le (fun x => decide (t - x < 60)) (st ++ [t])
      simp only [List.length_append, List.length_cons, List.length_nil] at hlf
      omega
    have hc : check_rate_limits st t = (st ++ [t], false) := by
      simp only [check_rate_limits]
      rw [hpush, decide_eq_false hno]
    have hstep : (fun (acc : List ℚ × List (AlertSeverity × String)) t =>
        let c := check_rate_limits acc.1 t
        (c.1, if c.2 then acc.2 ++ [rateLimitAlert] else acc.2)) (st, al) t =
        (st ++ [t], al) := by
      simp [hc]
    simp only [List.foldl_cons, hstep]
    rw [ih (st ++ [t]) al
      (by simp only [List.length_append, List.length_cons, List.length_nil]; omega)]
    simp

/-- C9: on a single active session, 11 messages whose timestamps all lie
within 59 seconds of each other produce exactly one medium-severity
"unusual activity" alert-intent (at the 11th message), and 10 messages
produce none: the trigger is strictly more than 10 timestamps inside the
trailing 60-second window, evaluated after each append. -/
theorem rate_limit_trigger :
    (∀ ts : List ℚ, ts.length = 11 → (∀ s ∈ ts, ∀ t ∈ ts, s - t ≤ 59) →
      (runRate ts).2 = [rateLimitAlert]) ∧
    (∀ ts : List ℚ, ts.length = 10 → (runRate ts).2 = []) := by
  constructor
  · intro ts hlen hspread
    have hne : ts ≠ [] := by
      intro hnil
      rw [hnil] at hlen
      simp at hlen
    have hts : ts.dropLast ++ [ts.getLast hne] = ts := List.dropLast_append_getLast hne
    have hinit : ts.dropLast.length = 10 := by
      have hl := congrArg List.length hts
      simp only [List.length_append, List.length_cons, List.length_nil] at hl
      omega
    unfold runRate
    rw [← hts, List.foldl_append,
      runRate_no_alert_low ts.dropLast [] [] (by simp only [List.length_nil, hinit]; omega)]
    have hpush : pushRate ts.dropLast (ts.getLast hne) = ts.dropLast ++ [ts.getLast hne] := by
      unfold pushRate
      rw [if_neg]
      simp only [List.length_append, List.length_cons, List.length_nil, hinit]
      omega
    have hfull : (ts.dropLast ++ [ts.getLast hne]).filter
        (fun x => decide (ts.getLast hne - x < 60)) = ts.dropLast ++ [ts.getLast hne] := by
      apply List.filter_eq_self.mpr
      intro a ha
      rw [hts] at ha
      have hlast : ts.getLast hne ∈ ts := List.getLast_mem hne
      have hs := hspread (ts.getLast hne) hlast a ha
      simp only [decide_eq_true_eq]
      linarith
    have hdec : decide (10 < (ts.dropLast ++ [ts.getLast hne]).length) = true := by
      simp only [List.length_append, List.length_cons, List.length_nil, hinit]
      decide
    have hc : check_rate_limits ts.dropLast (ts.getLast hne) =
        (ts.dropLast ++ [ts.getLast hne], true) := by
      simp only [check_rate_limits]
      rw [hpush, hfull, hdec]
    simp only [List.nil_append, List.foldl_cons, List.foldl_nil, hc]
    simp
  · intro ts hlen
    unfold runRate
    rw [runRate_no_alert_low ts [] [] (by simp [hlen])]

/-- Witness for `rate_limit_trigger` at concrete timestamp lists. -/
theorem rate_limit_trigger_witness :
    (runRate (List.replicate 11 (0 : ℚ))).2 = [rateLimitAlert] ∧
    (runRate (List.replicate 10 (0 : ℚ))).2 = [] := by
  refine ⟨rate_limit_trigger.1 _ (by simp) ?_, rate_limit_trigger.2 _ (by simp)⟩
  intro s hs t ht
  rw [List.eq_of_mem_replicate hs, List.eq_of_mem_replicate ht]
  norm_num

/-! Section: Claim theorems: scorer determinism -/

/-- C5 (counterexample): `analyze_message` stamps the result with
`datetime.now()`, so two calls with identical arguments made at different
times yield results that are not bit-identical: the `timestamp` fields
differ. -/
theorem score_timestamp_cex :
    (analyze_message "hi" none none none emptyContext 0).1 ≠
      (analyze_message "hi" none none none emptyContext 1).1 := by
  intro h
  have h0 : (analyze_message "hi" none none none emptyContext 0).1.timestamp = 0 := rfl
  have h1 : (analyze_message "hi" none none none emptyContext 1).1.timestamp = 1 := rfl
  rw [h, h1] at h0
  norm_num at h0

/-- C5 (amended): the scorer is deterministic in all of its actual inputs —
message, ages, conversation id, conversation state and clock: with those
fixed, the result is a pure function. Every field except `timestamp` is
independent of the clock (two calls at different times agree on every
other field and on the updated conversation state), and `timestamp` equals
the call time, which is exactly where bit-identity fails. -/
theorem score_deterministic_amended :
    ∀ (message : String) (sender_age recipient_age : Option Int)
      (conversation_id : Option String) (ctx : ConversationContext) (t1 t2 : ℚ),
      (analyze_message message sender_age recipient_age conversation_id ctx t1).1.risk_level =
        (analyze_message message sender_age recipient_age conversation_id ctx t2).1.risk_level ∧
      (analyze_message message sender_age recipient_age conversation_id ctx t1).1.confidence =
        (analyze_message message sender_age recipient_age conversation_id ctx t2).1.confidence ∧
      (analyze_message message sender_age recipient_age conversation_id ctx t1).1.patterns_detected =
        (analyze_message message sender_age recipient_age conversation_id ctx t2).1.patterns_detected ∧
      (analyze_message message sender_age recipient_age conversation_id ctx t1).1.risk_factors =
        (analyze_message message sender_age recipient_age conversation_id ctx t2).1.risk_factors ∧
      (analyze_message message sender_age recipient_age conversation_id ctx t1).1.explanation =
        (analyze_message message sender_age recipient_age conversation_id ctx t2).1.explanation ∧
      (analyze_message message sender_age recipient_age conversation_id ctx t1).1.recommendations =
        (analyze_message message sender_age recipient_age conversation_id ctx t2).1.recommendations ∧
      (analyze_message message sender_age recipient_age conversation_id ctx t1).1.message_hash =
        (analyze_message message sender_age recipient_age conversation_id ctx t2).1.message_hash ∧
      (analyze_message message sender_age recipient_age conversation_id ctx t1).1.timestamp = t1 ∧
      (analyze_message message sender_age recipient_age conversation_id ctx t1).2 =
        (analyze_message message sender_age recipient_age conversation_id ctx t2).2 := by
  intro message sender_age recipient_age conversation_id ctx t1 t2
  exact ⟨rfl, rfl, rfl, rfl, rfl, rfl, rfl, rfl, rfl⟩

/-! Section: Claim theorems: pattern kind coverage -/

/-- Every pattern reported by the detection loop is a key of the
`grooming_patterns` table. -/
theorem patternScan_fold_mem (message_lower : List Char) (p : GroomingPattern) :
    ∀ (L : List (GroomingPattern × PatternConfig))
      (acc : List GroomingPattern × List String × ℚ),
      p ∈ (L.foldl
        (fun acc pc =>
          let pattern_score := detect_pattern message_lower pc.2
          if 3/10 < pattern_score then
            (acc.1 ++ [pc.1],
             acc.2.1 ++ [pattern_value pc.1 ++ ": " ++ fmtQ pattern_score],
             acc.2.2 + pattern_score * pc.2.weight)
          else acc) acc).1 →
      p ∈ acc.1 ∨ p ∈ L.map Prod.fst := by
  intro L
  induction L with
  | nil => intro acc h; exact Or.inl h
  | cons pc L ih =>
    intro acc h
    simp only [List.foldl_cons] at h
    rcases ih _ h with hacc | hl
    · by_cases hs : 3/10 < detect_pattern message_lower pc.2
      · rw [if_pos hs] at hacc
        rcases List.mem_append.mp hacc with hin | hone
        · exact Or.inl hin
        · right
          simp only [List.map_cons, List.mem_cons]
          exact Or.inl (List.mem_singleton.mp hone)
      · rw [if_neg hs] at hacc
        exact Or.inl hacc
    · right
      simp only [List.map_cons, List.mem_cons]
      exact Or.inr hl

/-- The detected-pattern list of `analyze_message` is the one produced by
the table loop on the lowercased message. -/
theorem analyze_message_patterns_eq (message : String) (sender_age recipient_age : Option Int)
    (conversation_id : Option String) (ctx : ConversationContext) (now : ℚ) :
    (analyze_message message sender_age recipient_age conversation_id ctx now).1.patterns_detected =
      (patternScan (toLowerList message)).1 := rfl

/-- C6 (counterexample): the fixed pattern table does not cover the whole
ten-element `GroomingPattern` enumeration — `risk_assessment` and
`exclusivity` have no table entry, contradicting the claim that for each
of the ten kinds some message is detected with that kind. -/
theorem undetectable_kinds_cex :
    decide (GroomingPattern.risk_assessment ∈ grooming_patterns.map Prod.fst) = false ∧
    decide (GroomingPattern.exclusivity ∈ grooming_patterns.map Prod.fst) = false := by
  exact ⟨by decide, by decide⟩

/-- C6 (amended): the table covers exactly eight of the ten kinds, in
source order; for each of those eight kinds some concrete message is
detected with that kind, while `risk_assessment` and `exclusivity` are
never detected, on any input. -/
theorem pattern_detection_coverage :
    (∀ (message : String) (sender_age recipient_age : Option Int)
        (conversation_id : Option String) (ctx : ConversationContext) (now : ℚ),
      decide (GroomingPattern.risk_assessment ∈
        (analyze_message message sender_age recipient_age conversation_id ctx
          now).1.patterns_detected) = false ∧
      decide (GroomingPattern.exclusivity ∈
        (analyze_message message sender_age recipient_age conversation_id ctx
          now).1.patterns_detected) = false) ∧
    grooming_patterns.map Prod.fst =
      [.trust_building, .isolation, .dependency, .sexual_content,
       .meeting_request, .secrecy, .gift_offering, .personal_info_request] ∧
    GroomingPattern.trust_building ∈
      (analyze_message "you can trust me" none none none emptyContext
        0).1.patterns_detected ∧
    GroomingPattern.isolation ∈
      (analyze_message (aw "don" "t tell anyone our secret") none none none emptyContext
        0).1.patterns_detected ∧
    GroomingPattern.dependency ∈
      (analyze_message (aw "i" "m here for you, you need me") none none none emptyContext
        0).1.patterns_detected ∧
    GroomingPattern.sexual_content ∈
      (analyze_message "curious about sex" none none none emptyContext
        0).1.patterns_detected ∧
    GroomingPattern.meeting_request ∈
      (analyze_message "want to meet up? pick you up" none none none emptyContext
        0).1.patterns_detected ∧
    GroomingPattern.secrecy ∈
      (analyze_message "keep this between us, our little secret" none none none emptyContext
        0).1.patterns_detected ∧
    GroomingPattern.gift_offering ∈
      (analyze_message "i have a present for you, special gift for you" none none none
        emptyContext 0).1.patterns_detected ∧
    GroomingPattern.personal_info_request ∈
      (analyze_message "where do you live? what school" none none none emptyContext
        0).1.patterns_detected := by
  refine ⟨?_, by decide, ?_, ?_, ?_, ?_, ?_, ?_, ?_, ?_⟩
  · intro message sender_age recipient_age conversation_id ctx now
    constructor <;>
      · apply decide_eq_false
        intro hmem
        rw [analyze_message_patterns_eq] at hmem
        rcases patternScan_fold_mem (toLowerList message) _ grooming_patterns _ hmem with
          hin | hin
        · simp at hin
        · revert hin
          decide
  all_goals with_unfolding_all decide

/-! Section: Claim theorems: score monotonicity -/

/-- Folding the `(score + c, matches + 1)` update over a list counts the
matching entries. -/
theorem foldl_pair_count {α : Type} (l : List α) (q : α → Bool) (c : ℚ) :
    ∀ p : ℚ × ℕ,
      l.foldl (fun p x => if q x then (p.1 + c, p.2 + 1) else p) p =
        (p.1 + c * (l.countP q : ℚ), p.2 + l.countP q) := by
  induction l with
  | nil =>
    intro p
    simp
  | cons x t ih =>
    intro p
    by_cases h : q x = true
    · simp only [List.foldl_cons, if_pos h, ih, List.countP_cons, h]
      refine Prod.ext ?_ ?_ <;> simp
      · ring
      · ring
    · simp only [List.foldl_cons, if_neg h, ih, List.countP_cons, h]
      simp

/-- Closed form of `_detect_pattern`: with `k` matching keywords and `p`
matching phrases the score is `min (0.1 k + 0.3 p) 1` (no clamping happens
when nothing matches — the score is 0 then). -/
theorem detect_pattern_eq (message : List Char) (config : PatternConfig) :
    detect_pattern message config =
      (if 0 < config.keywords.countP (fun kw => containsSub kw.toList message) +
            config.phrases.countP (fun ph => rsearch ph message) then
        min ((1/10) * (config.keywords.countP (fun kw => containsSub kw.toList message) : ℚ) +
             (3/10) * (config.phrases.countP (fun ph => rsearch ph message) : ℚ)) 1
      else
        (1/10) * (config.keywords.countP (fun kw => containsSub kw.toList message) : ℚ) +
        (3/10) * (config.phrases.countP (fun ph => rsearch ph message) : ℚ)) := by
  simp only [detect_pattern]
  rw [foldl_pair_count]
  rw [foldl_pair_count]
  simp only [zero_add]

/-- The `countP` is monotone along a pointwise implication of predicates. -/
theorem countP_mono_of_imp {α : Type} (l : List α) (q r : α → Bool)
    (h : ∀ x ∈ l, q x = true → r x = true) : l.countP q ≤ l.countP r := by
  induction l with
  | nil => simp
  | cons x t ih =>
    simp only [List.countP_cons]
    have ht := ih (fun y hy => h y (List.mem_cons_of_mem _ hy))
    have hx := h x (List.mem_cons_self _ _)
    split_ifs with h1 h2 <;> first
      | omega
      | exact absurd (hx h1) h2

/-- The `_detect_pattern` never returns a negative score. -/
theorem detect_pattern_nonneg (message : List Char) (config : PatternConfig) :
    0 ≤ detect_pattern message config := by
  rw [detect_pattern_eq]
  have h1 : (0:ℚ) ≤
      (1/10) * (config.keywords.countP (fun kw => containsSub kw.toList message) : ℚ) +
      (3/10) * (config.phrases.countP (fun ph => rsearch ph message) : ℚ) := by positivity
  split_ifs
  · exact le_min h1 zero_le_one
  · exact h1

/-- The `_detect_pattern` is monotone in the matched table entries: if every
entry matching `m1` still matches `m2`, the per-pattern score does not
decrease. -/
theorem detect_pattern_mono (m1 m2 : List Char) (config : PatternConfig)
    (hk : ∀ kw ∈ config.keywords,
      containsSub kw.toList m1 = true → containsSub kw.toList m2 = true)
    (hp : ∀ ph ∈ config.phrases, rsearch ph m1 = true → rsearch ph m2 = true) :
    detect_pattern m1 config ≤ detect_pattern m2 config := by
  rw [detect_pattern_eq, detect_pattern_eq]
  have hkc := countP_mono_of_imp config.keywords _ _ hk
  have hpc := countP_mono_of_imp config.phrases _ _ hp
  have hv : (1/10 : ℚ) * (config.keywords.countP (fun kw => containsSub kw.toList m1) : ℚ) +
      (3/10) * (config.phrases.countP (fun ph => rsearch ph m1) : ℚ) ≤
      (1/10) * (config.keywords.countP (fun kw => containsSub kw.toList m2) : ℚ) +
      (3/10) * (config.phrases.countP (fun ph => rsearch ph m2) : ℚ) := by
    have hkq : (config.keywords.countP (fun kw => containsSub kw.toList m1) : ℚ) ≤
        (config.keywords.countP (fun kw => containsSub kw.toList m2) : ℚ) := by
      exact_mod_cast hkc
    have hpq : (config.phrases.countP (fun ph => rsearch ph m1) : ℚ) ≤
        (config.phrases.countP (fun ph => rsearch ph m2) : ℚ) := by
      exact_mod_cast hpc
    have l1 := mul_le_mul_of_nonneg_left hkq (by norm_num : (0:ℚ) ≤ 1/10)
    have l2 := mul_le_mul_of_nonneg_left hpq (by norm_num : (0:ℚ) ≤ 3/10)
    linarith
  split_ifs with h1 h2
  · exact min_le_min hv le_rfl
  · exact absurd (by omega : 0 <
      config.keywords.countP (fun kw => containsSub kw.toList m2) +
      config.phrases.countP (fun ph => rsearch ph m2)) h2
  · have hk0 : config.keywords.countP (fun kw => containsSub kw.toList m1) = 0 := by omega
    have hp0 : config.phrases.countP (fun ph => rsearch ph m1) = 0 := by omega
    rw [hk0, hp0]
    simp only [Nat.cast_zero, mul_zero, add_zero]
    refine le_min ?_ zero_le_one
    positivity
  · exact hv

/-- Contribution of one pattern-table row to the pattern stage of the total
risk score: `score × weight` when the score passes the 0.3 detection
threshold, 0 otherwise. -/
def pattern_contribution (message : List Char) (pc : GroomingPattern × PatternConfig) : ℚ :=
  if 3/10 < detect_pattern message pc.2 then detect_pattern message pc.2 * pc.2.weight else 0

/-- The score component of the pattern-detection loop is the sum of the
per-row contributions. -/
theorem patternScan_total_eq (message_lower : List Char) :
    ∀ (L : List (GroomingPattern × PatternConfig))
      (acc : List GroomingPattern × List String × ℚ),
      (L.foldl
        (fun acc pc =>
          let pattern_score := detect_pattern message_lower pc.2
          if 3/10 < pattern_score then
            (acc.1 ++ [pc.1],
             acc.2.1 ++ [pattern_value pc.1 ++ ": " ++ fmtQ pattern_score],
             acc.2.2 + pattern_score * pc.2.weight)
          else acc) acc).2.2 =
        acc.2.2 + (L.map (pattern_contribution message_lower)).sum := by
  intro L
  induction L with
  | nil => intro acc; simp
  | cons pc L ih =>
    intro acc
    simp only [List.foldl_cons, List.map_cons, List.sum_cons, ih]
    by_cases hs : 3/10 < detect_pattern message_lower pc.2
    · rw [if_pos hs]
      simp only [pattern_contribution, if_pos hs]
      ring
    · rw [if_neg hs]
      simp only [pattern_contribution, if_neg hs]
      ring

/-- Every weight in the pattern table is nonnegative. -/
theorem grooming_weights_nonneg : ∀ pc ∈ grooming_patterns, 0 ≤ pc.2.weight := by
  with_unfolding_all decide

/-- C8 (amended): the pattern-detection component of the score is monotone
in the matched table entries: if every keyword and phrase matching `m1`
still matches `m2`, every per-pattern score and the summed weighted pattern
contribution do not decrease. (The claim as stated — about the whole
`totalScore` — fails, because the keyword-density term is normalized by
word count; see the counterexample.) -/
theorem pattern_score_monotone :
    ∀ (m1 m2 : List Char),
      (∀ pc ∈ grooming_patterns,
        (∀ kw ∈ pc.2.keywords,
          containsSub kw.toList m1 = true → containsSub kw.toList m2 = true) ∧
        (∀ ph ∈ pc.2.phrases, rsearch ph m1 = true → rsearch ph m2 = true)) →
      (∀ pc ∈ grooming_patterns, detect_pattern m1 pc.2 ≤ detect_pattern m2 pc.2) ∧
      (patternScan m1).2.2 ≤ (patternScan m2).2.2 := by
  intro m1 m2 h
  have hmono : ∀ pc ∈ grooming_patterns, detect_pattern m1 pc.2 ≤ detect_pattern m2 pc.2 :=
    fun pc hpc => detect_pattern_mono m1 m2 pc.2 (h pc hpc).1 (h pc hpc).2
  refine ⟨hmono, ?_⟩
  simp only [patternScan]
  rw [patternScan_total_eq m1 grooming_patterns ([], [], 0),
    patternScan_total_eq m2 grooming_patterns ([], [], 0)]
  simp only [zero_add]
  apply List.sum_le_sum
  intro pc hpc
  have hd := hmono pc hpc
  have hw : 0 ≤ pc.2.weight := grooming_weights_nonneg pc hpc
  simp only [pattern_contribution]
  split_ifs with h1 h2
  · exact mul_le_mul_of_nonneg_right hd hw
  · exact absurd (lt_of_lt_of_le h1 hd) h2
  · have h0 : (0:ℚ) ≤ detect_pattern m2 pc.2 := detect_pattern_nonneg m2 pc.2
    exact mul_nonneg h0 hw
  · exact le_rfl

/-- Witness for `pattern_score_monotone` at a concrete pair of messages. -/
theorem pattern_score_monotone_witness :
    (∀ pc ∈ grooming_patterns, detect_pattern [] pc.2 ≤ detect_pattern [] pc.2) ∧
    (patternScan []).2.2 ≤ (patternScan []).2.2 :=
  pattern_score_monotone [] [] (fun _ _ => ⟨fun _ _ hh => hh, fun _ _ hh => hh⟩)

/-- The pattern-table keyword entries (pattern, keyword) matched by a
message, in table order. -/
def matchedKeywordEntries (message : String) : List (GroomingPattern × String) :=
  grooming_patterns.foldr
    (fun pc acc =>
      ((pc.2.keywords.filter (fun kw => containsSub kw.toList (toLowerList message))).map
        (fun kw => (pc.1, kw))) ++ acc) []

/-- The pattern-table phrase entries (pattern, phrase) matched by a
message, in table order. -/
def matchedPhraseEntries (message : String) : List (GroomingPattern × List RTok) :=
  grooming_patterns.foldr
    (fun pc acc =>
      ((pc.2.phrases.filter (fun ph => rsearch ph (toLowerList message))).map
        (fun ph => (pc.1, ph))) ++ acc) []

/-- C8 (counterexample): `totalScore` is not monotone in the matched table
entries. The long message matches one more pattern-table entry than
`"secret"` (the secrecy keyword `"keep quiet"` in addition to `"secret"`,
and no phrase either way), yet its total score is lower: the keyword
density term is diluted by the word count (0.4 for the one-word message
against 0.28 for the ten-word one). -/
theorem totalScore_not_monotone_cex :
    matchedKeywordEntries "secret" = [(.secrecy, "secret")] ∧
    matchedKeywordEntries "secret xxxx yyyy zzzz wwww vvvv uuuu tttt keep quiet" =
      [(.secrecy, "secret"), (.secrecy, "keep quiet")] ∧
    matchedPhraseEntries "secret" = [] ∧
    matchedPhraseEntries "secret xxxx yyyy zzzz wwww vvvv uuuu tttt keep quiet" = [] ∧
    (scoreMessage "secret" none none none emptyContext).1 = 2/5 ∧
    (scoreMessage "secret xxxx yyyy zzzz wwww vvvv uuuu tttt keep quiet"
      none none none emptyContext).1 = 7/25 ∧
    (7/25 : ℚ) < 2/5 := by
  refine ⟨by with_unfolding_all decide, by with_unfolding_all decide,
    by with_unfolding_all decide, by with_unfolding_all decide,
    by with_unfolding_all decide, by with_unfolding_all decide, by norm_num⟩
